import Mathlib

/-!
Shallow embedding of `sharescript.py`, a shared-terminal web service.
Bytes are modelled as natural numbers below 256, byte strings as `List Nat`.
Python string literals are embedded as Lean strings and converted to bytes
by UTF-8 encoding (`strBytes`), matching Python's `str.encode()`.
The mutable global `terminal_state` is modelled by explicit state passing;
side effects (socket emissions, process spawns, file writes, signals) are
recorded as an ordered trace of `Act`ions.
-/

/-- UTF-8 encoding of a single character, as Python's `str.encode()` produces
for each code point. -/
def utf8Bytes (c : Char) : List Nat :=
  let n := c.toNat
  if n < 128 then [n]
  else if n < 2048 then [192 + n / 64, 128 + n % 64]
  else if n < 65536 then [224 + n / 4096, 128 + n / 64 % 64, 128 + n % 64]
  else [240 + n / 262144, 128 + n / 4096 % 64, 128 + n / 64 % 64, 128 + n % 64]

/-- The byte sequence of a Python string, UTF-8 encoded (`s.encode()`). -/
def strBytes (s : String) : List Nat :=
  (s.data.map utf8Bytes).flatten

/-- The standard base64 alphabet used by Python's `base64.b64encode`. -/
def b64Table : List Char :=
  ['A', 'B', 'C', 'D', 'E', 'F', 'G', 'H', 'I', 'J', 'K', 'L', 'M',
   'N', 'O', 'P', 'Q', 'R', 'S', 'T', 'U', 'V', 'W', 'X', 'Y', 'Z',
   'a', 'b', 'c', 'd', 'e', 'f', 'g', 'h', 'i', 'j', 'k', 'l', 'm',
   'n', 'o', 'p', 'q', 'r', 's', 't', 'u', 'v', 'w', 'x', 'y', 'z',
   '0', '1', '2', '3', '4', '5', '6', '7', '8', '9', '+', '/']

/-- The character encoding a 6-bit group. -/
def sextetChar (n : Nat) : Char :=
  b64Table.getD n 'A'

/-- The 6-bit value of a base64 alphabet character. -/
def charSextet (c : Char) : Nat :=
  b64Table.indexOf c

/-- Base64 encoding of a byte sequence (`base64.b64encode`): each group of
three bytes becomes four alphabet characters; a final group of one or two
bytes is padded with `=`. -/
def b64EncodeBytes : List Nat → List Char
  | [] => []
  | [a] => [sextetChar (a / 4), sextetChar (a % 4 * 16), '=', '=']
  | [a, b] => [sextetChar (a / 4), sextetChar (a % 4 * 16 + b / 16),
               sextetChar (b % 16 * 4), '=']
  | a :: b :: c :: rest =>
      sextetChar (a / 4) :: sextetChar (a % 4 * 16 + b / 16) ::
      sextetChar (b % 16 * 4 + c / 64) :: sextetChar (c % 64) ::
      b64EncodeBytes rest

/-- Base64 decoding (`base64.b64decode` on well-formed input): inverts
`b64EncodeBytes` four characters at a time, honouring `=` padding. -/
def b64DecodeChars : List Char → List Nat
  | c1 :: c2 :: c3 :: c4 :: rest =>
      if c3 = '=' then
        [charSextet c1 * 4 + charSextet c2 / 16]
      else if c4 = '=' then
        [charSextet c1 * 4 + charSextet c2 / 16,
         charSextet c2 % 16 * 16 + charSextet c3 / 4]
      else
        (charSextet c1 * 4 + charSextet c2 / 16) ::
        (charSextet c2 % 16 * 16 + charSextet c3 / 4) ::
        (charSextet c3 % 4 * 64 + charSextet c4) ::
        b64DecodeChars rest
  | _ => []

theorem charSextet_sextetChar : ∀ n < 64, charSextet (sextetChar n) = n := by
  decide

theorem sextetChar_ne_eq : ∀ n < 64, sextetChar n ≠ '=' := by
  decide

theorem sextetChar_ascii : ∀ n < 64, (sextetChar n).toNat < 128 := by
  decide

/-- Decoding inverts encoding on lists of bytes. -/
theorem b64_roundtrip : ∀ bs : List Nat, (∀ b ∈ bs, b < 256) →
    b64DecodeChars (b64EncodeBytes bs) = bs
  | [] => fun _ => rfl
  | [a] => fun h => by
      have ha : a < 256 := h a (by simp)
      simp only [b64EncodeBytes, b64DecodeChars, if_true, reduceIte]
      rw [charSextet_sextetChar _ (by omega), charSextet_sextetChar _ (by omega)]
      simp only [List.cons.injEq, and_true]
      omega
  | [a, b] => fun h => by
      have ha : a < 256 := h a (by simp)
      have hb : b < 256 := h b (by simp)
      simp only [b64EncodeBytes, b64DecodeChars]
      rw [if_neg (sextetChar_ne_eq _ (by omega))]
      simp only [reduceIte]
      rw [charSextet_sextetChar _ (by omega), charSextet_sextetChar _ (by omega),
        charSextet_sextetChar _ (by omega)]
      simp only [List.cons.injEq, and_true]
      omega
  | a :: b :: c :: rest => fun h => by
      have ha : a < 256 := h a (by simp)
      have hb : b < 256 := h b (by simp)
      have hc : c < 256 := h c (by simp)
      have ih := b64_roundtrip rest (fun x hx => h x (by simp [hx]))
      simp only [b64EncodeBytes, b64DecodeChars]
      rw [if_neg (sextetChar_ne_eq _ (by omega)), if_neg (sextetChar_ne_eq _ (by omega))]
      rw [charSextet_sextetChar _ (by omega), charSextet_sextetChar _ (by omega),
        charSextet_sextetChar _ (by omega), charSextet_sextetChar _ (by omega), ih]
      simp only [List.cons.injEq, and_true]
      refine ⟨by omega, by omega, by omega⟩

/-- Every character produced by the encoder is plain ASCII. -/
theorem b64EncodeBytes_ascii : ∀ bs : List Nat, (∀ b ∈ bs, b < 256) →
    ∀ ch ∈ b64EncodeBytes bs, ch.toNat < 128
  | [] => by simp [b64EncodeBytes]
  | [a] => fun h ch hch => by
      have ha : a < 256 := h a (by simp)
      simp only [b64EncodeBytes, List.mem_cons, List.not_mem_nil, or_false] at hch
      rcases hch with rfl | rfl | rfl | rfl
      · exact sextetChar_ascii _ (by omega)
      · exact sextetChar_ascii _ (by omega)
      · decide
      · decide
  | [a, b] => fun h ch hch => by
      have ha : a < 256 := h a (by simp)
      have hb : b < 256 := h b (by simp)
      simp only [b64EncodeBytes, List.mem_cons, List.not_mem_nil, or_false] at hch
      rcases hch with rfl | rfl | rfl | rfl
      · exact sextetChar_ascii _ (by omega)
      · exact sextetChar_ascii _ (by omega)
      · exact sextetChar_ascii _ (by omega)
      · decide
  | a :: b :: c :: rest => fun h ch hch => by
      have ha : a < 256 := h a (by simp)
      have hb : b < 256 := h b (by simp)
      have hc : c < 256 := h c (by simp)
      have ih := b64EncodeBytes_ascii rest (fun x hx => h x (by simp [hx]))
      simp only [b64EncodeBytes, List.mem_cons] at hch
      rcases hch with rfl | rfl | rfl | rfl | hm
      · exact sextetChar_ascii _ (by omega)
      · exact sextetChar_ascii _ (by omega)
      · exact sextetChar_ascii _ (by omega)
      · exact sextetChar_ascii _ (by omega)
      · exact ih ch hm

/-- The per-session global state of the Python service (`class TerminalState`):
whether a run is in flight, the child process and PTY master handles (process
ids and file descriptors modelled as naturals), and the raw replay buffer
`terminal_data`.  The `threading.Lock` field is modelled by every buffer
operation being a single atomic step. -/
structure TerminalState where
  is_running : Bool
  process : Option Nat
  master_fd : Option Nat
  terminal_data : List Nat
  deriving DecidableEq

/-- `terminal_state = TerminalState()`: the state right after construction. -/
def initial_terminal_state : TerminalState :=
  { is_running := false, process := none, master_fd := none, terminal_data := [] }

/-- `TerminalState.add_data`: appends raw bytes to `terminal_data`; if the
result exceeds 1 MiB, keeps only the last 512 KiB (Python slice
`self.terminal_data[-512*1024:]`, i.e. dropping all but the last 512 KiB). -/
def TerminalState.add_data (s : TerminalState) (data : List Nat) : TerminalState :=
  let td := s.terminal_data ++ data
  if td.length > 1024 * 1024 then
    { s with terminal_data := td.drop (td.length - 512 * 1024) }
  else
    { s with terminal_data := td }

/-- `TerminalState.get_terminal_data`: returns the whole buffer base64-encoded
as an ASCII string (`base64.b64encode(...).decode('ascii')`).  The method only
reads the state; the returned pair records the state after the call together
with the returned string. -/
def TerminalState.get_terminal_data (s : TerminalState) : TerminalState × String :=
  (s, String.mk (b64EncodeBytes s.terminal_data))

/-- `TerminalState.clear_data`: resets the buffer to empty. -/
def TerminalState.clear_data (s : TerminalState) : TerminalState :=
  { s with terminal_data := [] }

theorem add_data_is_running (s : TerminalState) (d : List Nat) :
    (s.add_data d).is_running = s.is_running := by
  simp only [TerminalState.add_data]
  split <;> rfl

theorem add_data_process (s : TerminalState) (d : List Nat) :
    (s.add_data d).process = s.process := by
  simp only [TerminalState.add_data]
  split <;> rfl

theorem add_data_master_fd (s : TerminalState) (d : List Nat) :
    (s.add_data d).master_fd = s.master_fd := by
  simp only [TerminalState.add_data]
  split <;> rfl

theorem suffix_append_suffix {α : Type} {xs ys : List α} (h : xs <:+ ys) (d : List α) :
    xs ++ d <:+ ys ++ d := by
  obtain ⟨t, rfl⟩ := h
  exact ⟨t, (List.append_assoc t xs d).symm⟩

/-- Taking the last `k` elements of a suffix of length at least `k` gives the
last `k` elements of the whole list. -/
theorem drop_last_of_suffix {α : Type} {xs ys : List α} (h : xs <:+ ys) (k : Nat)
    (hk : k ≤ xs.length) :
    xs.drop (xs.length - k) = ys.drop (ys.length - k) := by
  obtain ⟨t, rfl⟩ := h
  rw [List.length_append,
    show t.length + xs.length - k = t.length + (xs.length - k) by omega,
    ← List.drop_drop, List.drop_left]

/-- The buffer after `add_data` is a suffix of the old buffer with the new
bytes appended. -/
theorem add_data_suffix (s : TerminalState) (d : List Nat) :
    (s.add_data d).terminal_data <:+ s.terminal_data ++ d := by
  simp only [TerminalState.add_data]
  split
  · apply List.drop_suffix
  · exact List.suffix_refl _

/-- The caller-only error chunk of `handle_run_script` when a run is already
in flight. -/
def already_running_msg : String :=
  "\r\n\x1b[31mScript is already running!\x1b[0m\r\n"

/-- Notice appended and broadcast when `./foobar.sh` does not exist. -/
def not_found_msg : String :=
  "\r\n\x1b[33mfoobar.sh not found. Creating sample script...\x1b[0m\r\n"

/-- Chunk emitted by `create_sample_script` after writing the file. -/
def created_msg : String :=
  "\x1b[32mCreated enhanced sample foobar.sh script.\x1b[0m\r\n"

/-- The start banner chunk (the f-string with `script_path = "./foobar.sh"`). -/
def start_msg : String :=
  "\r\n\x1b[32m=== Starting ./foobar.sh ===\x1b[0m\r\n"

/-- The completion marker chunk, containing the decimal exit code. -/
def completion_msg (return_code : Int) : String :=
  "\r\n\x1b[32m=== Script completed with return code: " ++ toString return_code
    ++ " ===\x1b[0m\r\n"

/-- The error chunk of the `except` branch of `run_script_thread`, where `e`
is `str(e)` of the raised exception. -/
def error_msg (e : String) : String :=
  "\r\n\x1b[31mError running script: " ++ e ++ "\x1b[0m\r\n"

/-- The path of the target script. -/
def script_path : String :=
  "./foobar.sh"

/-- The exact file contents written by `create_sample_script` (the bash
braces of the range expression are written with hexadecimal escapes). -/
def sample_script_content : String :=
  "#!/bin/bash\n" ++
  "\n" ++
  "# Enhanced demo script with colors and terminal features\n" ++
  "echo -e \"\\033[1;34mStarting foobar.sh demo script...\\033[0m\"\n" ++
  "echo -e \"This script demonstrates \\033[1;33mfull terminal emulation\\033[0m capabilities.\"\n" ++
  "echo \"\"\n" ++
  "\n" ++
  "# Test basic colors\n" ++
  "echo -e \"\\033[31mRed text\\033[0m\"\n" ++
  "echo -e \"\\033[32mGreen text\\033[0m\" \n" ++
  "echo -e \"\\033[33mYellow text\\033[0m\"\n" ++
  "echo -e \"\\033[34mBlue text\\033[0m\"\n" ++
  "echo -e \"\\033[35mMagenta text\\033[0m\"\n" ++
  "echo -e \"\\033[36mCyan text\\033[0m\"\n" ++
  "echo \"\"\n" ++
  "\n" ++
  "# Test bold and styling\n" ++
  "echo -e \"\\033[1mBold text\\033[0m\"\n" ++
  "echo -e \"\\033[4mUnderlined text\\033[0m\"\n" ++
  "echo -e \"\\033[7mReversed text\\033[0m\"\n" ++
  "echo \"\"\n" ++
  "\n" ++
  "# Simulate progress with colors\n" ++
  "echo -e \"\\033[1;36mProgress simulation:\\033[0m\"\n" ++
  "for i in \x7b1..10\x7d; do\n" ++
  "    echo -ne \"\\033[33mProcessing step $i/10...\\033[0m\"\n" ++
  "    sleep 0.5\n" ++
  "    echo -e \" \\033[1;32m✓ Complete\\033[0m\"\n" ++
  "done\n" ++
  "\n" ++
  "echo \"\"\n" ++
  "echo -e \"\\033[1;35mTesting cursor movements and clearing...\\033[0m\"\n" ++
  "\n" ++
  "# Test some cursor movements\n" ++
  "echo -ne \"This text will be overwritten...\"\n" ++
  "sleep 1\n" ++
  "echo -ne \"\\r\\033[KNew text on the same line!\"\n" ++
  "sleep 1\n" ++
  "echo \"\"\n" ++
  "\n" ++
  "# Test background colors\n" ++
  "echo -e \"\\033[41mRed background\\033[0m\"\n" ++
  "echo -e \"\\033[42mGreen background\\033[0m\"\n" ++
  "echo -e \"\\033[43mYellow background\\033[0m\"\n" ++
  "echo \"\"\n" ++
  "\n" ++
  "# Simulate some \"errors\" and warnings with colors\n" ++
  "echo -e \"\\033[1;31mERROR: This is a sample error message\\033[0m\" >&2\n" ++
  "echo -e \"\\033[1;33mWARNING: This is a sample warning message\\033[0m\" >&2\n" ++
  "echo -e \"\\033[1;36mINFO: This is an informational message\\033[0m\"\n" ++
  "\n" ++
  "echo \"\"\n" ++
  "echo -e \"\\033[1;32mfoobar.sh completed successfully!\\033[0m\"\n" ++
  "echo -e \"\\033[2;37m(This terminal now supports vim, tmux, and other complex applications)\\033[0m\"\n"

/-- One observable side effect of the server, in program order.
`emitCaller` is flask-socketio's `emit(...)` inside a handler (delivered to
the requesting client only); `emitAll` is `socketio.emit(...)` (broadcast to
every connected client); `appendBuffer` records a `terminal_state.add_data`
call; `waitTimeout` and `killProcess` model the `process.wait(timeout)` and
single-process `os.kill` calls that a graceful shutdown could make — the
embedded code never performs them. -/
inductive Act where
  | emitCaller (event : String) (payload : List Nat)
  | emitAll (event : String) (payload : List Nat)
  | startThread
  | openPty (master_fd : Nat)
  | setTermSize (rows cols : Nat)
  | appendBuffer (data : List Nat)
  | writeScript (content : List Nat) (mode : Nat)
  | spawn (path : String) (pid : Nat)
  | closeSlave
  | waitProcess (code : Int)
  | closeMasterFd
  | killProcessGroup (pid : Nat) (sig : Nat)
  | killProcess (pid : Nat) (sig : Nat)
  | waitTimeout (seconds : Nat)
  | sysExit (code : Nat)
  deriving DecidableEq

/-- The environment a single execution of `run_script_thread` interacts
with: whether `./foobar.sh` exists, the PTY master descriptor the OS hands
out, whether `subprocess.Popen` succeeds (otherwise it raises and the
`except` branch runs, with `str(e) = error_text`), the child's pid, the
byte chunks the select/read loop obtains, the bytes of the final drain
read, and the child's exit code. -/
structure RunEnv where
  script_exists : Bool
  master_fd : Nat
  spawn_ok : Bool
  error_text : String
  pid : Nat
  chunks : List (List Nat)
  remaining : List Nat
  return_code : Int
  deriving DecidableEq

/-- `handle_run_script` (socket event `run_script`): if a run is in flight,
emit the informational chunk to the caller only and return; otherwise start
`run_script_thread` in a daemon thread.  The handler itself mutates nothing:
`is_running` is set only later, by the spawned thread. -/
def handle_run_script (s : TerminalState) : TerminalState × List Act :=
  if s.is_running then
    (s, [Act.emitCaller "terminal_data" (strBytes already_running_msg)])
  else
    (s, [Act.startThread])

/-- `handle_clear_terminal` (socket event `clear_terminal`): clears the
replay buffer and broadcasts `terminal_cleared`. -/
def handle_clear_terminal (s : TerminalState) : TerminalState × List Act :=
  (s.clear_data, [Act.emitAll "terminal_cleared" []])

/-- `create_sample_script`: writes the sample script, `chmod 0o755`, then
appends and broadcasts the created-notice chunk. -/
def create_sample_script (s : TerminalState) : TerminalState × List Act :=
  (s.add_data (strBytes created_msg),
   [Act.writeScript (strBytes sample_script_content) 0o755,
    Act.appendBuffer (strBytes created_msg),
    Act.emitAll "terminal_data" (strBytes created_msg)])

/-- The select/read loop of `run_script_thread`: each non-empty read is
appended to the replay buffer and broadcast to all clients. -/
def readLoop (s : TerminalState) : List (List Nat) → TerminalState × List Act
  | [] => (s, [])
  | d :: ds =>
      if d = [] then readLoop s ds
      else
        let s' := s.add_data d
        let r := readLoop s' ds
        (r.1, Act.appendBuffer d :: Act.emitAll "terminal_data" d :: r.2)

/-- The `finally` block of `run_script_thread`: closes the PTY master if it
is held, resets `is_running`, `process` and `master_fd`, and broadcasts
`script_finished`. -/
def finallyCleanup (s : TerminalState) (acts : List Act) :
    TerminalState × List Act :=
  let acts1 := if s.master_fd.isSome then acts ++ [Act.closeMasterFd] else acts
  ({ s with is_running := false, process := none, master_fd := none },
   acts1 ++ [Act.emitAll "script_finished" []])

/-- `run_script_thread`: sets `is_running`, broadcasts `script_started`,
opens a PTY and sets its size, substitutes a sample script if the target is
missing, appends and broadcasts the start banner, spawns the child (on
failure the `except` branch appends and broadcasts the error chunk), pumps
the read loop, drains one final read, appends and broadcasts the completion
marker, and runs the `finally` cleanup. -/
def run_script_thread (s0 : TerminalState) (env : RunEnv) :
    TerminalState × List Act :=
  let s1 : TerminalState := { s0 with is_running := true }
  let a1 : List Act := [Act.emitAll "script_started" []]
  let s2 : TerminalState := { s1 with master_fd := some env.master_fd }
  let a2 : List Act := a1 ++ [Act.openPty env.master_fd, Act.setTermSize 30 120]
  let r3 : TerminalState × List Act :=
    if env.script_exists then (s2, a2)
    else
      let nb := strBytes not_found_msg
      let s' := s2.add_data nb
      let rc := create_sample_script s'
      (rc.1, a2 ++ [Act.appendBuffer nb, Act.emitAll "terminal_data" nb] ++ rc.2)
  let sb := strBytes start_msg
  let s4 : TerminalState := r3.1.add_data sb
  let a4 : List Act :=
    r3.2 ++ [Act.appendBuffer sb, Act.emitAll "terminal_data" sb]
  if env.spawn_ok then
    let s5 : TerminalState := { s4 with process := some env.pid }
    let a5 : List Act := a4 ++ [Act.spawn script_path env.pid, Act.closeSlave]
    let r6 := readLoop s5 env.chunks
    let a6 : List Act := a5 ++ r6.2 ++ [Act.waitProcess env.return_code]
    let r7 : TerminalState × List Act :=
      if env.remaining = [] then (r6.1, a6)
      else (r6.1.add_data env.remaining,
            a6 ++ [Act.appendBuffer env.remaining,
                   Act.emitAll "terminal_data" env.remaining])
    let cm := strBytes (completion_msg env.return_code)
    let s8 : TerminalState := r7.1.add_data cm
    let a8 : List Act :=
      r7.2 ++ [Act.appendBuffer cm, Act.emitAll "terminal_data" cm]
    finallyCleanup s8 a8
  else
    let em := strBytes (error_msg env.error_text)
    let s5 : TerminalState := s4.add_data em
    let a5 : List Act :=
      a4 ++ [Act.appendBuffer em, Act.emitAll "terminal_data" em]
    finallyCleanup s5 a5

/-- `signal_handler`: on SIGINT/SIGTERM, if a child process is held, sends
SIGTERM (signal number 15) to its whole process group via
`os.killpg(os.getpgid(pid), SIGTERM)`, then `sys.exit(0)`. -/
def signal_handler (s : TerminalState) : List Act :=
  match s.process with
  | some pid => [Act.killProcessGroup pid 15, Act.sysExit 0]
  | none => [Act.sysExit 0]

/-- An operation on the replay buffer: an append by the stream reader or an
explicit clear. -/
inductive BufOp where
  | append (d : List Nat)
  | clear

/-- The effect of one buffer operation on the session state. -/
def applyOp (s : TerminalState) : BufOp → TerminalState
  | BufOp.append d => s.add_data d
  | BufOp.clear => s.clear_data

/-- The state after a sequence of buffer operations. -/
def runOps (s : TerminalState) (ops : List BufOp) : TerminalState :=
  ops.foldl applyOp s

/-- The concatenation of everything appended since the last clear, as a
function of the operation history. -/
def historyStep (h : List Nat) : BufOp → List Nat
  | BufOp.append d => h ++ d
  | BufOp.clear => []

/-- All bytes appended since the last clear in a sequence of operations. -/
def historySinceClear (ops : List BufOp) : List Nat :=
  ops.foldl historyStep []

theorem add_data_suffix_of_suffix {s : TerminalState} {h : List Nat} (d : List Nat)
    (hs : s.terminal_data <:+ h) : (s.add_data d).terminal_data <:+ h ++ d :=
  (add_data_suffix s d).trans (suffix_append_suffix hs d)

theorem runOps_suffix : ∀ (ops : List BufOp) (s : TerminalState) (h : List Nat),
    s.terminal_data <:+ h →
    (runOps s ops).terminal_data <:+ ops.foldl historyStep h
  | [], _, _, hs => hs
  | BufOp.append d :: ops, s, h, hs =>
      runOps_suffix ops (s.add_data d) (h ++ d) (add_data_suffix_of_suffix d hs)
  | BufOp.clear :: ops, s, _, _ =>
      runOps_suffix ops s.clear_data [] (List.suffix_refl _)

theorem readLoop_is_running (s : TerminalState) :
    ∀ cs : List (List Nat), (readLoop s cs).1.is_running = s.is_running
  | [] => rfl
  | d :: ds => by
      simp only [readLoop]
      split
      · exact readLoop_is_running s ds
      · rw [readLoop_is_running (s.add_data d) ds, add_data_is_running]

theorem readLoop_process (s : TerminalState) :
    ∀ cs : List (List Nat), (readLoop s cs).1.process = s.process
  | [] => rfl
  | d :: ds => by
      simp only [readLoop]
      split
      · exact readLoop_process s ds
      · rw [readLoop_process (s.add_data d) ds, add_data_process]

theorem readLoop_master_fd (s : TerminalState) :
    ∀ cs : List (List Nat), (readLoop s cs).1.master_fd = s.master_fd
  | [] => rfl
  | d :: ds => by
      simp only [readLoop]
      split
      · exact readLoop_master_fd s ds
      · rw [readLoop_master_fd (s.add_data d) ds, add_data_master_fd]

theorem finallyCleanup_state (s : TerminalState) (acts : List Act) :
    (finallyCleanup s acts).1.is_running = false ∧
    (finallyCleanup s acts).1.process = none ∧
    (finallyCleanup s acts).1.master_fd = none := by
  refine ⟨rfl, rfl, rfl⟩

theorem finallyCleanup_acts_of_fd {s : TerminalState} (hfd : s.master_fd.isSome)
    (acts : List Act) :
    (finallyCleanup s acts).2 =
      acts ++ [Act.closeMasterFd, Act.emitAll "script_finished" []] := by
  simp only [finallyCleanup, if_pos hfd, List.append_assoc, List.singleton_append]

theorem terminal_data_mk (a : Bool) (b c : Option Nat) (x : List Nat) :
    (TerminalState.mk a b c x).terminal_data = x := rfl

/-- C2: appending bytes evicts from the head down to exactly the 512 KiB
floor when the 1 MiB cap is exceeded, keeping the most recent suffix of the
full history `H` since the last clear; otherwise nothing is discarded. -/
theorem add_data_eviction (s : TerminalState) (d H : List Nat)
    (hs : s.terminal_data <:+ H) :
    if (s.terminal_data ++ d).length > 1024 * 1024 then
      (s.add_data d).terminal_data.length = 512 * 1024 ∧
      (s.add_data d).terminal_data = (H ++ d).drop ((H ++ d).length - 512 * 1024)
    else (s.add_data d).terminal_data = s.terminal_data ++ d := by
  by_cases hgt : (s.terminal_data ++ d).length > 1024 * 1024
  · rw [if_pos hgt]
    unfold TerminalState.add_data
    rw [if_pos hgt]
    constructor
    · rw [terminal_data_mk, List.length_drop]
      omega
    · rw [terminal_data_mk]
      exact drop_last_of_suffix (suffix_append_suffix hs d) _ (by omega)
  · rw [if_neg hgt]
    unfold TerminalState.add_data
    rw [if_neg hgt, terminal_data_mk]

theorem add_data_eviction_witness :
    (([1] : List Nat) <:+ [0, 1]) ∧
    (if (([1] : List Nat) ++ [2]).length > 1024 * 1024 then
       (TerminalState.add_data ⟨false, none, none, [1]⟩ [2]).terminal_data.length
           = 512 * 1024 ∧
       (TerminalState.add_data ⟨false, none, none, [1]⟩ [2]).terminal_data
           = (([0, 1] : List Nat) ++ [2]).drop ((([0, 1] : List Nat) ++ [2]).length - 512 * 1024)
     else (TerminalState.add_data ⟨false, none, none, [1]⟩ [2]).terminal_data
           = [1] ++ [2]) :=
  ⟨⟨[0], rfl⟩, add_data_eviction ⟨false, none, none, [1]⟩ [2] [0, 1] ⟨[0], rfl⟩⟩

/-- C3: after any sequence of appends and clears starting from the fresh
state, the buffer is a contiguous suffix of everything appended since the
last clear, and a clear followed by a snapshot returns the empty string. -/
theorem buffer_suffix_invariant (ops : List BufOp) :
    (runOps initial_terminal_state ops).terminal_data <:+ historySinceClear ops ∧
    ∀ s : TerminalState, (TerminalState.get_terminal_data s.clear_data).2 = "" := by
  constructor
  · exact runOps_suffix ops initial_terminal_state [] (List.suffix_refl [])
  · intro s
    rfl

/-- C10: the snapshot leaves the state untouched, returns an ASCII base64
string whose decoding is exactly the buffer contents, and returns the empty
string on an empty buffer. -/
theorem get_terminal_data_roundtrip (s : TerminalState)
    (hb : ∀ b ∈ s.terminal_data, b < 256) :
    s.get_terminal_data.1 = s ∧
    b64DecodeChars s.get_terminal_data.2.data = s.terminal_data ∧
    (∀ ch ∈ s.get_terminal_data.2.data, ch.toNat < 128) ∧
    (s.terminal_data = [] → s.get_terminal_data.2 = "") := by
  refine ⟨rfl, b64_roundtrip _ hb, b64EncodeBytes_ascii _ hb, ?_⟩
  intro h
  simp only [TerminalState.get_terminal_data, h]
  rfl

theorem get_terminal_data_roundtrip_witness :
    (TerminalState.get_terminal_data ⟨false, none, none, [72, 105]⟩).1
        = ⟨false, none, none, [72, 105]⟩ ∧
    b64DecodeChars
        (TerminalState.get_terminal_data ⟨false, none, none, [72, 105]⟩).2.data
        = [72, 105] ∧
    (∀ ch ∈ (TerminalState.get_terminal_data ⟨false, none, none, [72, 105]⟩).2.data,
        ch.toNat < 128) ∧
    (([72, 105] : List Nat) = [] →
        (TerminalState.get_terminal_data ⟨false, none, none, [72, 105]⟩).2 = "") :=
  get_terminal_data_roundtrip ⟨false, none, none, [72, 105]⟩ (by decide)

/-- C5: a run request while a run is in flight yields exactly one
informational chunk to the caller, no broadcast, no buffer append, no
thread start, and no state change. -/
theorem run_while_running_rejected (s : TerminalState) (h : s.is_running = true) :
    handle_run_script s =
      (s, [Act.emitCaller "terminal_data" (strBytes already_running_msg)]) ∧
    (∀ e p, Act.emitAll e p ∉ (handle_run_script s).2) ∧
    (∀ d, Act.appendBuffer d ∉ (handle_run_script s).2) ∧
    Act.startThread ∉ (handle_run_script s).2 := by
  simp [handle_run_script, h]

theorem run_while_running_rejected_witness :
    handle_run_script ⟨true, none, none, []⟩ =
      (⟨true, none, none, []⟩,
       [Act.emitCaller "terminal_data" (strBytes already_running_msg)]) ∧
    (∀ e p, Act.emitAll e p ∉ (handle_run_script ⟨true, none, none, []⟩).2) ∧
    (∀ d, Act.appendBuffer d ∉ (handle_run_script ⟨true, none, none, []⟩).2) ∧
    Act.startThread ∉ (handle_run_script ⟨true, none, none, []⟩).2 :=
  run_while_running_rejected ⟨true, none, none, []⟩ rfl

/-- C7: clearing is permitted in every state, empties the buffer,
broadcasts exactly one `terminal_cleared` event, leaves the run flag and the
process and PTY handles unchanged, and later output is appended normally. -/
theorem clear_terminal_frame (s : TerminalState) :
    (handle_clear_terminal s).1.terminal_data = [] ∧
    (handle_clear_terminal s).2 = [Act.emitAll "terminal_cleared" []] ∧
    (handle_clear_terminal s).1.is_running = s.is_running ∧
    (handle_clear_terminal s).1.process = s.process ∧
    (handle_clear_terminal s).1.master_fd = s.master_fd ∧
    ∀ d, ((handle_clear_terminal s).1.add_data d).terminal_data =
      if d.length > 1024 * 1024 then d.drop (d.length - 512 * 1024) else d := by
  refine ⟨rfl, rfl, rfl, rfl, rfl, ?_⟩
  intro d
  show (TerminalState.add_data { s with terminal_data := [] } d).terminal_data = _
  unfold TerminalState.add_data
  simp only [List.nil_append]
  split
  · rw [terminal_data_mk]
  · rw [terminal_data_mk]

/-- Whether the shutdown handler performs any bounded wait for a graceful
exit or any forced single-process kill. -/
def hasGracefulStop (acts : List Act) : Bool :=
  acts.any fun a =>
    match a with
    | Act.waitTimeout _ => true
    | Act.killProcess _ _ => true
    | _ => false

/-- C8 counterexample: with a live child (pid 42), the shutdown handler
signals the process group and exits immediately; it performs no grace-period
wait and no forced termination, contrary to the claim. -/
theorem signal_handler_no_grace_wait :
    signal_handler ⟨true, some 42, some 3, []⟩ =
      [Act.killProcessGroup 42 15, Act.sysExit 0] ∧
    hasGracefulStop (signal_handler ⟨true, some 42, some 3, []⟩) = false := by
  decide

/-- C8 amended: on shutdown with a live child, SIGTERM goes to the whole
process group (never to the single process), and the server exits cleanly
immediately, without waiting or forcing termination. -/
theorem signal_handler_kills_group (s : TerminalState) (pid : Nat)
    (h : s.process = some pid) :
    signal_handler s = [Act.killProcessGroup pid 15, Act.sysExit 0] ∧
    (∀ q g, Act.killProcess q g ∉ signal_handler s) ∧
    (∀ t, Act.waitTimeout t ∉ signal_handler s) ∧
    Act.sysExit 0 ∈ signal_handler s := by
  simp [signal_handler, h]

theorem signal_handler_kills_group_witness :
    signal_handler ⟨true, some 42, some 3, []⟩ =
      [Act.killProcessGroup 42 15, Act.sysExit 0] ∧
    (∀ q g, Act.killProcess q g ∉ signal_handler ⟨true, some 42, some 3, []⟩) ∧
    (∀ t, Act.waitTimeout t ∉ signal_handler ⟨true, some 42, some 3, []⟩) ∧
    Act.sysExit 0 ∈ signal_handler ⟨true, some 42, some 3, []⟩ :=
  signal_handler_kills_group ⟨true, some 42, some 3, []⟩ 42 rfl

theorem suffix_append_right {α : Type} (l₁ : List α) {t l₂ : List α}
    (h : t <:+ l₂) : t <:+ l₁ ++ l₂ := by
  obtain ⟨u, rfl⟩ := h
  exact ⟨l₁ ++ u, List.append_assoc l₁ u t⟩

theorem suffix_cons_of_suffix {α : Type} (a : α) {t l : List α}
    (h : t <:+ l) : t <:+ a :: l :=
  h.trans (List.suffix_cons a l)

theorem strBytes_append (s₁ s₂ : String) :
    strBytes (s₁ ++ s₂) = strBytes s₁ ++ strBytes s₂ := by
  simp [strBytes, String.data_append]

/-- Both exits of `run_script_thread` pass through the `finally` block, so
the session always ends not running with both handles released. -/
theorem run_script_thread_resets (s : TerminalState) (env : RunEnv) :
    (run_script_thread s env).1.is_running = false ∧
    (run_script_thread s env).1.process = none ∧
    (run_script_thread s env).1.master_fd = none := by
  simp only [run_script_thread]
  split
  · exact finallyCleanup_state _ _
  · exact finallyCleanup_state _ _

/-- C6: every modelled execution of the runner thread ends back at idle
with the handles released; and if the spawn fails, the error chunk is
appended and broadcast, followed by the cleanup and a `script_finished`
broadcast. -/
theorem spawn_failure_recovers (s : TerminalState) (env : RunEnv) :
    ((run_script_thread s env).1.is_running = false ∧
     (run_script_thread s env).1.process = none ∧
     (run_script_thread s env).1.master_fd = none) ∧
    (env.spawn_ok = false →
      [Act.appendBuffer (strBytes (error_msg env.error_text)),
       Act.emitAll "terminal_data" (strBytes (error_msg env.error_text)),
       Act.closeMasterFd, Act.emitAll "script_finished" []]
        <:+ (run_script_thread s env).2) := by
  refine ⟨run_script_thread_resets s env, ?_⟩
  intro hok
  by_cases hse : env.script_exists
  · simp only [run_script_thread, create_sample_script, finallyCleanup, hok, hse,
      Bool.false_eq_true, if_false, if_true, eq_self_iff_true,
      add_data_master_fd, readLoop_master_fd, Option.isSome_some,
      List.append_assoc, List.cons_append, List.nil_append, List.singleton_append]
    repeat first
      | exact List.suffix_refl _
      | apply suffix_cons_of_suffix
      | apply suffix_append_right
  · simp only [run_script_thread, create_sample_script, finallyCleanup, hok, hse,
      Bool.false_eq_true, if_false, if_true, eq_self_iff_true,
      add_data_master_fd, readLoop_master_fd, Option.isSome_some,
      List.append_assoc, List.cons_append, List.nil_append, List.singleton_append]
    repeat first
      | exact List.suffix_refl _
      | apply suffix_cons_of_suffix
      | apply suffix_append_right

/-- C4 amended: on child exit with code `c`, the drained bytes (when any)
are appended and broadcast, then the completion marker containing the
decimal exit code is appended to the buffer and broadcast, then the process
and PTY handles are released (the PTY master is closed), and only then is
the `script_finished` event broadcast. -/
theorem process_exit_sequence (s : TerminalState) (env : RunEnv)
    (hok : env.spawn_ok = true) :
    ([Act.appendBuffer (strBytes (completion_msg env.return_code)),
      Act.emitAll "terminal_data" (strBytes (completion_msg env.return_code)),
      Act.closeMasterFd, Act.emitAll "script_finished" []]
        <:+ (run_script_thread s env).2) ∧
    (env.remaining ≠ [] →
      [Act.appendBuffer env.remaining, Act.emitAll "terminal_data" env.remaining,
       Act.appendBuffer (strBytes (completion_msg env.return_code)),
       Act.emitAll "terminal_data" (strBytes (completion_msg env.return_code)),
       Act.closeMasterFd, Act.emitAll "script_finished" []]
        <:+ (run_script_thread s env).2) ∧
    (∃ u v, strBytes (completion_msg env.return_code) =
       u ++ strBytes (toString env.return_code) ++ v) ∧
    (run_script_thread s env).1.is_running = false ∧
    (run_script_thread s env).1.process = none ∧
    (run_script_thread s env).1.master_fd = none := by
  obtain ⟨h1, h2, h3⟩ := run_script_thread_resets s env
  refine ⟨?_, ?_, ?_, h1, h2, h3⟩
  · by_cases hse : env.script_exists <;> by_cases hrem : env.remaining = [] <;>
      · simp only [run_script_thread, create_sample_script, finallyCleanup, hok, hse,
          hrem, Bool.false_eq_true, if_false, if_true, eq_self_iff_true, ne_eq,
          add_data_master_fd, readLoop_master_fd, Option.isSome_some,
          List.append_assoc, List.cons_append, List.nil_append, List.singleton_append]
        repeat first
          | exact List.suffix_refl _
          | apply suffix_cons_of_suffix
          | apply suffix_append_right
  · intro hrem
    by_cases hse : env.script_exists <;>
      · simp only [run_script_thread, create_sample_script, finallyCleanup, hok, hse,
          hrem, Bool.false_eq_true, if_false, if_true, eq_self_iff_true, ne_eq,
          add_data_master_fd, readLoop_master_fd, Option.isSome_some,
          List.append_assoc, List.cons_append, List.nil_append, List.singleton_append]
        repeat first
          | exact List.suffix_refl _
          | apply suffix_cons_of_suffix
          | apply suffix_append_right
  · refine ⟨strBytes "\r\n\x1b[32m=== Script completed with return code: ",
      strBytes " ===\x1b[0m\r\n", ?_⟩
    simp only [completion_msg, strBytes_append]

/-- `occursBefore x y tr` holds when the first occurrence of `x` in `tr` is
followed, strictly later, by an occurrence of `y`. -/
def occursBefore (x y : Act) : List Act → Bool
  | [] => false
  | a :: rest => if a = x then rest.any (fun b => decide (b = y)) else occursBefore x y rest

/-- A concrete successful run: the script exists, the child (pid 7) writes
one chunk and exits with code 0 after a non-empty final drain read. -/
def exit_env : RunEnv :=
  { script_exists := true, master_fd := 3, spawn_ok := true, error_text := "",
    pid := 7, chunks := [[104, 105]], remaining := [13], return_code := 0 }

/-- C4 counterexample: on this concrete successful run the `script_finished`
broadcast never precedes the release of the PTY master; the release comes
first, so the claimed order (finished, then release) is false. -/
theorem finished_before_release_false :
    occursBefore (Act.emitAll "script_finished" []) Act.closeMasterFd
        (run_script_thread initial_terminal_state exit_env).2 = false ∧
    occursBefore Act.closeMasterFd (Act.emitAll "script_finished" [])
        (run_script_thread initial_terminal_state exit_env).2 = true := by
  decide

theorem process_exit_sequence_witness :
    ([Act.appendBuffer (strBytes (completion_msg 0)),
      Act.emitAll "terminal_data" (strBytes (completion_msg 0)),
      Act.closeMasterFd, Act.emitAll "script_finished" []]
        <:+ (run_script_thread initial_terminal_state exit_env).2) ∧
    ([Act.appendBuffer [13], Act.emitAll "terminal_data" [13],
      Act.appendBuffer (strBytes (completion_msg 0)),
      Act.emitAll "terminal_data" (strBytes (completion_msg 0)),
      Act.closeMasterFd, Act.emitAll "script_finished" []]
        <:+ (run_script_thread initial_terminal_state exit_env).2) ∧
    (∃ u v, strBytes (completion_msg 0) = u ++ strBytes (toString (0 : Int)) ++ v) ∧
    (run_script_thread initial_terminal_state exit_env).1.is_running = false ∧
    (run_script_thread initial_terminal_state exit_env).1.process = none ∧
    (run_script_thread initial_terminal_state exit_env).1.master_fd = none := by
  have h := process_exit_sequence initial_terminal_state exit_env rfl
  exact ⟨h.1, h.2.1 (by decide), h.2.2.1, h.2.2.2.1, h.2.2.2.2.1, h.2.2.2.2.2⟩

/-- A concrete failing spawn: the script exists but `subprocess.Popen`
raises. -/
def fail_env : RunEnv :=
  { script_exists := true, master_fd := 3, spawn_ok := false, error_text := "boom",
    pid := 0, chunks := [], remaining := [], return_code := 0 }

theorem spawn_failure_recovers_witness :
    ((run_script_thread initial_terminal_state fail_env).1.is_running = false ∧
     (run_script_thread initial_terminal_state fail_env).1.process = none ∧
     (run_script_thread initial_terminal_state fail_env).1.master_fd = none) ∧
    ([Act.appendBuffer (strBytes (error_msg "boom")),
      Act.emitAll "terminal_data" (strBytes (error_msg "boom")),
      Act.closeMasterFd, Act.emitAll "script_finished" []]
        <:+ (run_script_thread initial_terminal_state fail_env).2) :=
  ⟨(spawn_failure_recovers initial_terminal_state fail_env).1,
   (spawn_failure_recovers initial_terminal_state fail_env).2 rfl⟩

/-- C9: when `./foobar.sh` is missing, the run does not fail: the notice
chunk is appended and broadcast, the sample script is written with mode
`0o755`, its created-notice is appended and broadcast, the start banner is
appended and broadcast, and the script is then spawned as a normal run. -/
theorem missing_script_placeholder (s : TerminalState) (env : RunEnv)
    (hse : env.script_exists = false) (hok : env.spawn_ok = true) :
    ∃ rest, (run_script_thread s env).2 =
      [Act.emitAll "script_started" [], Act.openPty env.master_fd,
       Act.setTermSize 30 120,
       Act.appendBuffer (strBytes not_found_msg),
       Act.emitAll "terminal_data" (strBytes not_found_msg),
       Act.writeScript (strBytes sample_script_content) 0o755,
       Act.appendBuffer (strBytes created_msg),
       Act.emitAll "terminal_data" (strBytes created_msg),
       Act.appendBuffer (strBytes start_msg),
       Act.emitAll "terminal_data" (strBytes start_msg),
       Act.spawn script_path env.pid, Act.closeSlave] ++ rest := by
  by_cases hrem : env.remaining = [] <;>
    · simp only [run_script_thread, create_sample_script, finallyCleanup, hok, hse,
        hrem, Bool.false_eq_true, if_false, if_true, eq_self_iff_true, ne_eq,
        add_data_master_fd, readLoop_master_fd, Option.isSome_some,
        List.append_assoc, List.cons_append, List.nil_append, List.singleton_append]
      exact ⟨_, rfl⟩

/-- A concrete run against a missing script. -/
def missing_env : RunEnv :=
  { script_exists := false, master_fd := 3, spawn_ok := true, error_text := "",
    pid := 9, chunks := [], remaining := [], return_code := 0 }

theorem missing_script_placeholder_witness :
    ∃ rest, (run_script_thread initial_terminal_state missing_env).2 =
      [Act.emitAll "script_started" [], Act.openPty 3,
       Act.setTermSize 30 120,
       Act.appendBuffer (strBytes not_found_msg),
       Act.emitAll "terminal_data" (strBytes not_found_msg),
       Act.writeScript (strBytes sample_script_content) 0o755,
       Act.appendBuffer (strBytes created_msg),
       Act.emitAll "terminal_data" (strBytes created_msg),
       Act.appendBuffer (strBytes start_msg),
       Act.emitAll "terminal_data" (strBytes start_msg),
       Act.spawn script_path 9, Act.closeSlave] ++ rest :=
  missing_script_placeholder initial_terminal_state missing_env rfl rfl

/-- The number of child processes spawned in a trace. -/
def countSpawns (acts : List Act) : Nat :=
  acts.countP fun a =>
    match a with
    | Act.spawn _ _ => true
    | _ => false

/-- A concrete successful run used for the double-request schedule. -/
def race_env : RunEnv :=
  { script_exists := true, master_fd := 3, spawn_ok := true, error_text := "",
    pid := 101, chunks := [], remaining := [], return_code := 0 }

/-- C1 failing schedule: two `run_script` events are handled while
`is_running` is still false — the handler only checks the flag, the spawned
thread sets it later — so neither request receives `AlreadyRunning`, both
start a runner thread, and two child processes are spawned. -/
theorem double_run_both_spawn :
    (handle_run_script initial_terminal_state).2 = [Act.startThread] ∧
    (handle_run_script initial_terminal_state).1 = initial_terminal_state ∧
    (handle_run_script (handle_run_script initial_terminal_state).1).2 =
      [Act.startThread] ∧
    countSpawns
      ((handle_run_script initial_terminal_state).2 ++
       (handle_run_script (handle_run_script initial_terminal_state).1).2 ++
       (run_script_thread (handle_run_script
          (handle_run_script initial_terminal_state).1).1 race_env).2 ++
       (run_script_thread (run_script_thread (handle_run_script
          (handle_run_script initial_terminal_state).1).1 race_env).1
          { race_env with pid := 102 }).2) = 2 := by
  set_option maxRecDepth 100000 in decide
